import Mathlib

set_option autoImplicit false
set_option maxHeartbeats 1600000

namespace Fdmonbench

/-! Shallow embedding of the fdmonbench repository: the five notification
engine backends (src/select.c, src/poll.c, src/epoll.c, src/io_uring.c and
the thread-per-descriptor backend), the load generator (src/iogen.c) and
the option-parsing gate of the main translation unit. Each definition is
translated from the named source function; statuses of the specification
claims are settled by the theorems at the end of the file. -/

/-- The five backends. Constructor names follow the name field of each
engine_ops structure: select, poll, epoll, io_uring and threads. -/
inductive Backend where
  | select
  | poll
  | epoll
  | iouring
  | threads
deriving DecidableEq

/-- struct options (fdmonbench.h). Counts are modelled as Nat; the
validation in parse_options guarantees they are positive, but the fields
themselves carry no such restriction. -/
structure Options where
  num_fds : Nat
  msg_size : Nat
  exclusive : Bool
  num_engines : Nat
  duration_secs : Nat
deriving DecidableEq

/-- The supports_exclusive field of each engine_ops structure: set to true
only in epoll_engine_ops (src/epoll.c line 175) and io_uring_engine_ops
(src/io_uring.c line 200); absent, hence false, for select, poll and
threads. -/
def supports_exclusive : Backend → Bool
  | .epoll => true
  | .iouring => true
  | _ => false

/-- The exclusive-wakeup gate in parse_options (main translation unit,
line 164): the combination is rejected, with a descriptive message,
exactly when exclusive is requested and the selected engine_ops does not
support it. Returns true when parse_options rejects. -/
def parseRejectsExclusive (exclusive : Bool) (b : Backend) : Bool :=
  exclusive && !supports_exclusive b

/-! ## Steady-state handling of one ready descriptor (claim C1, C2)

Each worker loop iteration dispatches on one ready descriptor. The
handler is modelled as a function of the read(2) return value observed
for that descriptor. The write(2) call, when reached, always asks for
msg_size bytes; its return value is ignored by every backend. -/

/-- Outcome of handling one ready descriptor in a worker loop. The fatal
constructor exists so that the model can state that no outcome of the
handlers is ever treated as an error. -/
inductive Action where
  | skip
  | echo (bytes : Nat)
  | exitLoop
  | fatal (msg : String)
deriving DecidableEq

/-- Body of the per-descriptor dispatch in select_thread (src/select.c
lines 45-68). isControl is the test i == 0 (the eventfd occupies slot 0);
the control read asks for 8 bytes (sizeof uint64_t) and the thread
returns only when it reads exactly 8; the data read asks for msg_size
bytes and the echo write of msg_size bytes runs whenever the read
returned a positive value. -/
def selectHandleReady (msg_size : Nat) (isControl : Bool) (readRet : Int) : Action :=
  if isControl then
    if readRet ≠ 8 then .skip else .exitLoop
  else if readRet ≤ 0 then .skip
  else .echo msg_size

/-- Body of the per-descriptor dispatch in poll_thread (src/poll.c lines
30-55), for a descriptor whose revents include POLLIN. Identical control
and data policy to select_thread. -/
def pollHandleReady (msg_size : Nat) (isControl : Bool) (readRet : Int) : Action :=
  if isControl then
    if readRet ≠ 8 then .skip else .exitLoop
  else if readRet ≤ 0 then .skip
  else .echo msg_size

/-- Body of the per-event dispatch in epoll_thread (src/epoll.c lines
32-51). isControl is the test fd == pe.efd. -/
def epollHandleReady (msg_size : Nat) (isControl : Bool) (readRet : Int) : Action :=
  if isControl then
    if readRet ≠ 8 then .skip else .exitLoop
  else if readRet ≤ 0 then .skip
  else .echo msg_size

/-- Body of the per-completion dispatch in io_uring_thread
(src/io_uring.c lines 61-84). isControl is the test fd == pe.efd; the
requeue of the one-shot poll submission happens on every path and is not
part of the echo decision. -/
def iouringHandleReady (msg_size : Nat) (isControl : Bool) (readRet : Int) : Action :=
  if isControl then
    if readRet ≠ 8 then .skip else .exitLoop
  else if readRet ≤ 0 then .skip
  else .echo msg_size

/-- Body of one loop iteration of threads_fd_thread (the
thread-per-descriptor worker, lines 26-34 of its translation unit): the
echo write runs only when the blocking read returned exactly msg_size
bytes; any other return value is skipped. This backend has no control
descriptor, so there is no control branch. -/
def threadsHandleReady (msg_size : Nat) (readRet : Int) : Action :=
  if readRet ≠ (msg_size : Int) then .skip else .echo msg_size

/-- Dispatch of the per-ready-descriptor handler over the backends. For
the threads backend the isControl argument is irrelevant: its worker has
a single data descriptor and no control descriptor. -/
def handleReady (b : Backend) (msg_size : Nat) (isControl : Bool) (readRet : Int) : Action :=
  match b with
  | .select => selectHandleReady msg_size isControl readRet
  | .poll => pollHandleReady msg_size isControl readRet
  | .epoll => epollHandleReady msg_size isControl readRet
  | .iouring => iouringHandleReady msg_size isControl readRet
  | .threads => threadsHandleReady msg_size readRet

/-- Claim C1 as stated is false: in select_thread a short positive read
is not skipped. With msg_size = 4, a read that returns only 1 byte still
triggers an echo write of 4 bytes, although 1 is not a fully successful
read of msg_size bytes. -/
theorem C1_short_read_still_echoes :
    handleReady Backend.select 4 false 1 = Action.echo 4 ∧ (1 : Int) ≠ 4 := by
  constructor
  · rfl
  · decide

/-- Claim C1 (amended): every backend attempts a read for each ready data
descriptor and, when it echoes, writes back exactly msg_size bytes; a
failed or empty read is always skipped and never treated as an error; the
threads backend echoes exactly on a full msg_size read, while the select,
poll, epoll and io_uring backends echo whenever the read returned at
least one byte, so for those four a short positive read is echoed rather
than skipped. -/
theorem C1_echo_policy (b : Backend) (ms : Nat) (r : Int) (hms : 0 < ms) :
    (∀ n, handleReady b ms false r = Action.echo n → n = ms) ∧
    (r ≤ 0 → handleReady b ms false r = Action.skip) ∧
    (∀ m, handleReady b ms false r ≠ Action.fatal m) ∧
    (b ≠ Backend.threads → 0 < r → handleReady b ms false r = Action.echo ms) ∧
    (b = Backend.threads →
      (handleReady b ms false r = Action.echo ms ↔ r = (ms : Int))) := by
  refine ⟨?_, ?_, ?_, ?_, ?_⟩
  · intro n h
    cases b <;>
      simp [handleReady, selectHandleReady, pollHandleReady, epollHandleReady,
        iouringHandleReady, threadsHandleReady] at h <;>
      split_ifs at h <;> simp_all
  · intro hr
    cases b <;>
      simp [handleReady, selectHandleReady, pollHandleReady, epollHandleReady,
        iouringHandleReady, threadsHandleReady] <;>
      omega
  · intro m h
    cases b <;>
      simp [handleReady, selectHandleReady, pollHandleReady, epollHandleReady,
        iouringHandleReady, threadsHandleReady] at h <;>
      split_ifs at h <;> simp at h
  · intro hb hr
    cases b
    case threads => exact absurd rfl hb
    all_goals
      simp [handleReady, selectHandleReady, pollHandleReady, epollHandleReady,
        iouringHandleReady]
      omega
  · intro hb
    subst hb
    simp only [handleReady, threadsHandleReady]
    split_ifs with hc <;> simp_all

/-- Witness for C1_echo_policy at a concrete input: the select backend
skips a failed read of return value -1. -/
theorem C1_echo_policy_witness :
    handleReady Backend.select 4 false (-1) = Action.skip :=
  (C1_echo_policy Backend.select 4 (-1) (by decide)).2.1 (by decide)

/-! ## Destroy sequences (claim C2)

Each destroy function is modelled as the list of externally visible
actions it performs, in program order. -/

/-- One action of a destroy function. writeControl is the sentinel write
into the control eventfd (with the byte count written); closeFd and
freeMem carry a small tag distinguishing the descriptors and heap blocks
of one engine instance. -/
inductive DAct where
  | writeControl (bytes : Nat)
  | joinThread (i : Nat)
  | cancelThread (i : Nat)
  | semDestroy
  | closeFd (tag : Nat)
  | freeMem (tag : Nat)
  | queueExit
deriving DecidableEq

/-- select_destroy (src/select.c lines 170-184): write the 8-byte
sentinel to the eventfd in slot 0, join the worker, destroy the startup
semaphore, close the eventfd, free the fds array (tag 0), the message
buffer (tag 1) and the engine structure (tag 2). -/
def selectDestroyTrace : List DAct :=
  [.writeControl 8, .joinThread 0, .semDestroy, .closeFd 0,
   .freeMem 0, .freeMem 1, .freeMem 2]

/-- poll_destroy (src/poll.c lines 148-162): sentinel write to
pollfds[0].fd, join, semaphore destroy, close the eventfd, free the
pollfds array, the message buffer and the engine structure. -/
def pollDestroyTrace : List DAct :=
  [.writeControl 8, .joinThread 0, .semDestroy, .closeFd 0,
   .freeMem 0, .freeMem 1, .freeMem 2]

/-- epoll_destroy (src/epoll.c lines 155-169): sentinel write to the
eventfd, join, semaphore destroy, close the eventfd (tag 0) and the
epoll descriptor (tag 1), free the message buffer and the engine
structure. -/
def epollDestroyTrace : List DAct :=
  [.writeControl 8, .joinThread 0, .semDestroy, .closeFd 0, .closeFd 1,
   .freeMem 1, .freeMem 2]

/-- io_uring_destroy (src/io_uring.c lines 180-194): sentinel write to
the eventfd, join, semaphore destroy, close the eventfd, tear down the
ring, free the message buffer and the engine structure. -/
def iouringDestroyTrace : List DAct :=
  [.writeControl 8, .joinThread 0, .semDestroy, .closeFd 0, .queueExit,
   .freeMem 1, .freeMem 2]

/-- threads_destroy (thread-per-descriptor translation unit, lines
119-133): for each worker i below num_fds, cancel it and join it; then
destroy the startup semaphore and free the thread array, the message
buffer and the engine structure. There is no control descriptor and no
sentinel write. -/
def threadsDestroyTrace (num_fds : Nat) : List DAct :=
  (List.range num_fds).flatMap (fun i => [.cancelThread i, .joinThread i]) ++
    [.semDestroy, .freeMem 0, .freeMem 1, .freeMem 2]

/-- Dispatch of the destroy traces. n is the number of data descriptors,
relevant only to the threads backend. -/
def destroyTrace (b : Backend) (n : Nat) : List DAct :=
  match b with
  | .select => selectDestroyTrace
  | .poll => pollDestroyTrace
  | .epoll => epollDestroyTrace
  | .iouring => iouringDestroyTrace
  | .threads => threadsDestroyTrace n

/-- Is the action a release of instance memory or of a descriptor (a
resource a running worker could still touch)? -/
def isRelease : DAct → Bool
  | .semDestroy => true
  | .closeFd _ => true
  | .freeMem _ => true
  | .queueExit => true
  | _ => false

/-- Is the action a thread join? -/
def isJoin : DAct → Bool
  | .joinThread _ => true
  | _ => false

/-- True when no thread join occurs after any release action: every
worker is joined before the trace starts tearing down resources. -/
def joinsPrecedeReleases : List DAct → Bool
  | [] => true
  | a :: rest =>
    if isRelease a then rest.all (fun x => !isJoin x)
    else joinsPrecedeReleases rest

/-- The number of worker threads one engine instance spawns: num_fds for
the thread-per-descriptor backend, one for the others. -/
def numWorkers (b : Backend) (num_fds : Nat) : Nat :=
  match b with
  | .threads => num_fds
  | _ => 1

theorem joinsPrecedeReleases_append_of_no_release (l1 l2 : List DAct)
    (h : ∀ a ∈ l1, isRelease a = false) :
    joinsPrecedeReleases (l1 ++ l2) = joinsPrecedeReleases l2 := by
  induction l1 with
  | nil => rfl
  | cons a rest ih =>
    have ha : isRelease a = false := h a (List.mem_cons_self a rest)
    simp only [List.cons_append, joinsPrecedeReleases, ha]
    simp only [Bool.false_eq_true, if_false]
    exact ih (fun x hx => h x (List.mem_cons_of_mem a hx))

/-- Claim C2 as stated is false for the thread-per-descriptor backend:
its destroy begins with a pthread_cancel of worker 0, not with a
sentinel write to a control descriptor (the backend has none). -/
theorem C2_threads_destroy_has_no_control_write :
    (destroyTrace Backend.threads 1).head? = some (DAct.cancelThread 0) ∧
    ∀ bytes, DAct.writeControl bytes ∉ destroyTrace Backend.threads 1 := by
  constructor
  · rfl
  · intro bytes
    simp [destroyTrace, threadsDestroyTrace, List.range_succ]

/-- Claim C2 (amended): in every backend, destroy joins every worker
thread before any release action (semaphore destruction, descriptor
close, queue teardown or free), so destroy cannot return while a worker
could still touch instance memory. For the select, poll, epoll and
io_uring backends the first action of destroy is the 8-byte sentinel
write to the private control eventfd, and a worker that reads the
sentinel from the ready control descriptor exits its loop without
echoing. The thread-per-descriptor backend has no control descriptor:
its destroy instead cancels each of its n workers and joins each of
them. -/
theorem C2_destroy_joins_before_release (b : Backend) (n ms : Nat) :
    joinsPrecedeReleases (destroyTrace b n) = true ∧
    (∀ i, i < numWorkers b n → DAct.joinThread i ∈ destroyTrace b n) ∧
    (b ≠ Backend.threads →
      (destroyTrace b n).head? = some (DAct.writeControl 8) ∧
      handleReady b ms true 8 = Action.exitLoop) ∧
    (b = Backend.threads → ∀ i, i < n → DAct.cancelThread i ∈ destroyTrace b n) := by
  cases b
  case threads =>
    refine ⟨?_, ?_, ?_, ?_⟩
    · show joinsPrecedeReleases (threadsDestroyTrace n) = true
      unfold threadsDestroyTrace
      rw [joinsPrecedeReleases_append_of_no_release]
      · rfl
      · intro a ha
        rcases List.mem_flatMap.mp ha with ⟨i, _, hmem⟩
        simp only [List.mem_cons, List.not_mem_nil, or_false] at hmem
        rcases hmem with h | h <;> subst h <;> rfl
    · intro i hi
      show DAct.joinThread i ∈ threadsDestroyTrace n
      unfold threadsDestroyTrace
      refine List.mem_append_left _ (List.mem_flatMap.mpr ⟨i, List.mem_range.mpr hi, ?_⟩)
      simp
    · intro hb; exact absurd rfl hb
    · intro _ i hi
      show DAct.cancelThread i ∈ threadsDestroyTrace n
      unfold threadsDestroyTrace
      refine List.mem_append_left _ (List.mem_flatMap.mpr ⟨i, List.mem_range.mpr hi, ?_⟩)
      simp
  case select =>
    refine ⟨(by decide : joinsPrecedeReleases selectDestroyTrace = true), ?_, ?_, by intro h; exact absurd h (by decide)⟩
    · intro i hi
      have hz : i = 0 := Nat.lt_one_iff.mp hi
      subst hz
      show DAct.joinThread 0 ∈ selectDestroyTrace
      decide
    · intro _
      exact ⟨rfl, by simp [handleReady, selectHandleReady]⟩
  case poll =>
    refine ⟨(by decide : joinsPrecedeReleases pollDestroyTrace = true), ?_, ?_, by intro h; exact absurd h (by decide)⟩
    · intro i hi
      have hz : i = 0 := Nat.lt_one_iff.mp hi
      subst hz
      show DAct.joinThread 0 ∈ pollDestroyTrace
      decide
    · intro _
      exact ⟨rfl, by simp [handleReady, pollHandleReady]⟩
  case epoll =>
    refine ⟨(by decide : joinsPrecedeReleases epollDestroyTrace = true), ?_, ?_, by intro h; exact absurd h (by decide)⟩
    · intro i hi
      have hz : i = 0 := Nat.lt_one_iff.mp hi
      subst hz
      show DAct.joinThread 0 ∈ epollDestroyTrace
      decide
    · intro _
      exact ⟨rfl, by simp [handleReady, epollHandleReady]⟩
  case iouring =>
    refine ⟨(by decide : joinsPrecedeReleases iouringDestroyTrace = true), ?_, ?_, by intro h; exact absurd h (by decide)⟩
    · intro i hi
      have hz : i = 0 := Nat.lt_one_iff.mp hi
      subst hz
      show DAct.joinThread 0 ∈ iouringDestroyTrace
      decide
    · intro _
      exact ⟨rfl, by simp [handleReady, iouringHandleReady]⟩

/-- Witness for C2_destroy_joins_before_release: the epoll backend with
one data descriptor and msg_size 4; its destroy begins with the sentinel
write, and the worker exits on reading it. -/
theorem C2_destroy_witness :
    (destroyTrace Backend.epoll 1).head? = some (DAct.writeControl 8) ∧
    handleReady Backend.epoll 4 true 8 = Action.exitLoop :=
  (C2_destroy_joins_before_release Backend.epoll 1 4).2.2.1 (by decide)

/-! ## Worker startup order and the create handshake (claim C3) -/

/-- One step of a worker thread observable at startup, in program
order. setupStep covers straight-line preparation such as the nfds
computation of select_thread or the per-iteration fd_set rebuild;
postReady is the sem_post on the startup semaphore; enterWait is the
entry into the blocking wait primitive (select, poll, epoll_wait,
io_uring_submit_and_wait, or the blocking read of the
thread-per-descriptor worker). -/
inductive WAct where
  | setupStep
  | postReady
  | enterWait
deriving DecidableEq

/-- Program-order prefix of select_thread (src/select.c lines 18-43) up
to its first blocking wait: compute nfds, post the startup semaphore,
rebuild the fd_set, call select. -/
def selectWorkerPrefix : List WAct :=
  [.setupStep, .postReady, .setupStep, .enterWait]

/-- Program-order prefix of poll_thread (src/poll.c lines 18-28): post
the startup semaphore, call poll. -/
def pollWorkerPrefix : List WAct :=
  [.postReady, .enterWait]

/-- Program-order prefix of epoll_thread (src/epoll.c lines 18-30): post
the startup semaphore, call epoll_wait. -/
def epollWorkerPrefix : List WAct :=
  [.postReady, .enterWait]

/-- Program-order prefix of io_uring_thread (src/io_uring.c lines
48-59): post the startup semaphore, call io_uring_submit_and_wait. -/
def iouringWorkerPrefix : List WAct :=
  [.postReady, .enterWait]

/-- Program-order prefix of threads_fd_thread (thread-per-descriptor
translation unit, lines 18-29): read the stashed descriptor, post the
startup semaphore, enter the blocking read. -/
def threadsWorkerPrefix : List WAct :=
  [.setupStep, .postReady, .enterWait]

/-- Dispatch of the worker startup prefixes. -/
def workerPrefix (b : Backend) : List WAct :=
  match b with
  | .select => selectWorkerPrefix
  | .poll => pollWorkerPrefix
  | .epoll => epollWorkerPrefix
  | .iouring => iouringWorkerPrefix
  | .threads => threadsWorkerPrefix

/-- Result of one sem_wait call inside the create handshake loop. -/
inductive SemRes where
  | success
  | eintr
  | fail
deriving DecidableEq

/-- The handshake loop shared by every create function (for select:
src/select.c lines 143-145): do ret = sem_wait while ret is -1 with
errno EINTR. Returns true when the loop ends with a successful wait and
false when it ends with a non-EINTR error; an empty schedule is the
degenerate case in which no call returns, modelled as false. -/
def semWaitLoop : List SemRes → Bool
  | [] => false
  | .success :: _ => true
  | .eintr :: rest => semWaitLoop rest
  | .fail :: _ => false

/-- Claim C3 as stated is false: in select_thread the readiness post
happens before the worker enters its wait primitive, not immediately
after, so a returned create does not guarantee the worker is already
blocked in select. -/
theorem C3_post_is_before_wait :
    ¬ ((workerPrefix Backend.select).indexOf WAct.enterWait <
       (workerPrefix Backend.select).indexOf WAct.postReady) := by
  decide

/-- Claim C3 (amended): create blocks in its sem_wait loop until a
worker has posted readiness (the loop only reports success when a
sem_wait call succeeds, which requires a matching post); in every
backend the worker posts readiness immediately before entering its wait
primitive, after finishing any straight-line setup. When create returns,
every worker has therefore started and signaled readiness, but is not
guaranteed to already be blocked inside the wait primitive. -/
theorem C3_handshake_order (b : Backend) (s : List SemRes)
    (h : semWaitLoop s = true) :
    SemRes.success ∈ s ∧
    (workerPrefix b).indexOf WAct.postReady <
      (workerPrefix b).indexOf WAct.enterWait ∧
    WAct.postReady ∈ workerPrefix b := by
  refine ⟨?_, ?_, ?_⟩
  · induction s with
    | nil => cases h
    | cons a rest ih =>
      cases a with
      | success => exact List.mem_cons_self _ _
      | eintr => exact List.mem_cons_of_mem _ (ih h)
      | fail => cases h
  · cases b <;> decide
  · cases b <;> decide

/-- Witness for C3_handshake_order: a handshake schedule that is
interrupted once and then succeeds, for the poll backend. -/
theorem C3_handshake_order_witness :
    SemRes.success ∈ [SemRes.eintr, SemRes.success] ∧
    (workerPrefix Backend.poll).indexOf WAct.postReady <
      (workerPrefix Backend.poll).indexOf WAct.enterWait ∧
    WAct.postReady ∈ workerPrefix Backend.poll :=
  C3_handshake_order Backend.poll [SemRes.eintr, SemRes.success] (by decide)

/-! ## Construction paths (claims C4, C5, C8, C10)

Each create function is modelled as a function of the configuration, the
caller descriptor array and a failure oracle that decides which fallible
primitive calls fail. The model records the resources acquired in
program order, the resources released by the unwind path taken (in the
order the source releases them) and the contents of the caller array on
return. -/

/-- One resource acquired during create. The names follow the engine
structure fields: the engine structure itself, the calloc message
buffer, the per-backend registration array, the control eventfd, the
epoll descriptor, the io_uring queue, the startup semaphore and the
worker threads. -/
inductive Res where
  | engineStruct
  | msgbuf
  | fdsArray
  | pollfdsArray
  | threadsArray
  | controlEventfd
  | epollFd
  | uringQueue
  | semaphore
  | worker (i : Nat)
deriving DecidableEq

/-- Failure oracle for one create call: which allocations and primitive
creations fail, which pthread_create calls fail, which sem_wait loops
end in a non-EINTR error, which epoll_ctl registrations fail, and
whether the eventfd returned by the kernel is numbered at or above
FD_SETSIZE. -/
structure Oracle where
  allocFails : Res → Bool
  spawnFails : Nat → Bool
  semWaitFails : Nat → Bool
  epollCtlFails : Nat → Bool
  eventfdTooBig : Bool

/-- The oracle under which every primitive call succeeds. -/
def benignOracle : Oracle :=
  { allocFails := fun _ => false
    spawnFails := fun _ => false
    semWaitFails := fun _ => false
    epollCtlFails := fun _ => false
    eventfdTooBig := false }

/-- Result of one create call: whether a handle was returned, the error
message stored through the errmsg out-parameter, the resources acquired
and released, and the caller descriptor array contents on return. -/
structure CreateOut where
  ok : Bool
  errmsg : Option String
  acquired : List Res
  released : List Res
  callerFds : List Int
deriving DecidableEq

/-- FD_SETSIZE, the descriptor-number ceiling of select. -/
def FD_SETSIZE : Int := 1024

/-- select_create (src/select.c lines 75-168). The branches mirror the
source in order: the exclusive check, the FD_SETSIZE scan over the
caller array, malloc of the engine structure, calloc of the message
buffer, malloc of the private fds array (into which the caller
descriptors are copied, leaving slot 0 for the eventfd), eventfd
creation, the FD_SETSIZE check on the eventfd, sem_init, pthread_create
and the sem_wait handshake. Each failure branch records the unwind
performed by the corresponding goto chain. -/
def selectCreate (opts : Options) (fds : List Int) (o : Oracle) : CreateOut :=
  if opts.exclusive then
    { ok := false, errmsg := some "select engine does not support exclusive=1",
      acquired := [], released := [], callerFds := fds }
  else if fds.any (fun fd => FD_SETSIZE ≤ fd) then
    { ok := false, errmsg := some "Maximum number of fds exceeded for select engine",
      acquired := [], released := [], callerFds := fds }
  else if o.allocFails .engineStruct then
    { ok := false, errmsg := some "Out of memory",
      acquired := [], released := [], callerFds := fds }
  else if o.allocFails .msgbuf then
    { ok := false, errmsg := some "Out of memory",
      acquired := [.engineStruct], released := [.engineStruct], callerFds := fds }
  else if o.allocFails .fdsArray then
    { ok := false, errmsg := some "Out of memory",
      acquired := [.engineStruct, .msgbuf],
      released := [.msgbuf, .engineStruct], callerFds := fds }
  else if o.allocFails .controlEventfd then
    { ok := false, errmsg := some "Eventfd creation failed",
      acquired := [.engineStruct, .msgbuf, .fdsArray],
      released := [.fdsArray, .msgbuf, .engineStruct], callerFds := fds }
  else if o.eventfdTooBig then
    { ok := false, errmsg := some "Maximum number of fds exceeded by eventfd",
      acquired := [.engineStruct, .msgbuf, .fdsArray, .controlEventfd],
      released := [.controlEventfd, .fdsArray, .msgbuf, .engineStruct],
      callerFds := fds }
  else if o.allocFails .semaphore then
    { ok := false, errmsg := some "Failed to create startup semaphore",
      acquired := [.engineStruct, .msgbuf, .fdsArray, .controlEventfd],
      released := [.controlEventfd, .fdsArray, .msgbuf, .engineStruct],
      callerFds := fds }
  else if o.spawnFails 0 then
    { ok := false, errmsg := some "pthread_create failed",
      acquired := [.engineStruct, .msgbuf, .fdsArray, .controlEventfd, .semaphore],
      released := [.semaphore, .controlEventfd, .fdsArray, .msgbuf, .engineStruct],
      callerFds := fds }
  else if o.semWaitFails 0 then
    { ok := false, errmsg := some "sem_wait failed",
      acquired := [.engineStruct, .msgbuf, .fdsArray, .controlEventfd, .semaphore,
        .worker 0],
      released := [.worker 0, .semaphore, .controlEventfd, .fdsArray, .msgbuf,
        .engineStruct],
      callerFds := fds }
  else
    { ok := true, errmsg := none,
      acquired := [.engineStruct, .msgbuf, .fdsArray, .controlEventfd, .semaphore,
        .worker 0],
      released := [], callerFds := fds }

/-- poll_create (src/poll.c lines 61-146). No exclusive check and no
descriptor-number ceiling; the pollfds array is written with the caller
descriptors at slots 1 onward and the eventfd at slot 0. -/
def pollCreate (opts : Options) (fds : List Int) (o : Oracle) : CreateOut :=
  if o.allocFails .engineStruct then
    { ok := false, errmsg := some "Out of memory",
      acquired := [], released := [], callerFds := fds }
  else if o.allocFails .msgbuf then
    { ok := false, errmsg := some "Out of memory",
      acquired := [.engineStruct], released := [.engineStruct], callerFds := fds }
  else if o.allocFails .pollfdsArray then
    { ok := false, errmsg := some "Out of memory",
      acquired := [.engineStruct, .msgbuf],
      released := [.msgbuf, .engineStruct], callerFds := fds }
  else if o.allocFails .controlEventfd then
    { ok := false, errmsg := some "Eventfd creation failed",
      acquired := [.engineStruct, .msgbuf, .pollfdsArray],
      released := [.pollfdsArray, .msgbuf, .engineStruct], callerFds := fds }
  else if o.allocFails .semaphore then
    { ok := false, errmsg := some "Failed to create startup semaphore",
      acquired := [.engineStruct, .msgbuf, .pollfdsArray, .controlEventfd],
      released := [.controlEventfd, .pollfdsArray, .msgbuf, .engineStruct],
      callerFds := fds }
  else if o.spawnFails 0 then
    { ok := false, errmsg := some "pthread_create failed",
      acquired := [.engineStruct, .msgbuf, .pollfdsArray, .controlEventfd, .semaphore],
      released := [.semaphore, .controlEventfd, .pollfdsArray, .msgbuf, .engineStruct],
      callerFds := fds }
  else if o.semWaitFails 0 then
    { ok := false, errmsg := some "sem_wait failed",
      acquired := [.engineStruct, .msgbuf, .pollfdsArray, .controlEventfd, .semaphore,
        .worker 0],
      released := [.worker 0, .semaphore, .controlEventfd, .pollfdsArray, .msgbuf,
        .engineStruct],
      callerFds := fds }
  else
    { ok := true, errmsg := none,
      acquired := [.engineStruct, .msgbuf, .pollfdsArray, .controlEventfd, .semaphore,
        .worker 0],
      released := [], callerFds := fds }

/-- epoll_do_create (src/epoll.c lines 57-153). The epoll descriptor is
created before the registrations; each of the num_fds data registrations
and the final eventfd registration can fail, unwinding through the goto
chain active at that point. -/
def epollCreate (opts : Options) (fds : List Int) (o : Oracle) : CreateOut :=
  if o.allocFails .engineStruct then
    { ok := false, errmsg := some "Out of memory",
      acquired := [], released := [], callerFds := fds }
  else if o.allocFails .msgbuf then
    { ok := false, errmsg := some "Out of memory",
      acquired := [.engineStruct], released := [.engineStruct], callerFds := fds }
  else if o.allocFails .epollFd then
    { ok := false, errmsg := some "epoll_create1 failed",
      acquired := [.engineStruct, .msgbuf],
      released := [.msgbuf, .engineStruct], callerFds := fds }
  else if (List.range opts.num_fds).any o.epollCtlFails then
    { ok := false, errmsg := some "epoll_ctl failed",
      acquired := [.engineStruct, .msgbuf, .epollFd],
      released := [.epollFd, .msgbuf, .engineStruct], callerFds := fds }
  else if o.allocFails .controlEventfd then
    { ok := false, errmsg := some "Eventfd creation failed",
      acquired := [.engineStruct, .msgbuf, .epollFd],
      released := [.epollFd, .msgbuf, .engineStruct], callerFds := fds }
  else if o.epollCtlFails opts.num_fds then
    { ok := false, errmsg := some "epoll_ctl failed",
      acquired := [.engineStruct, .msgbuf, .epollFd, .controlEventfd],
      released := [.controlEventfd, .epollFd, .msgbuf, .engineStruct],
      callerFds := fds }
  else if o.allocFails .semaphore then
    { ok := false, errmsg := some "Failed to create startup semaphore",
      acquired := [.engineStruct, .msgbuf, .epollFd, .controlEventfd],
      released := [.controlEventfd, .epollFd, .msgbuf, .engineStruct],
      callerFds := fds }
  else if o.spawnFails 0 then
    { ok := false, errmsg := some "pthread_create failed",
      acquired := [.engineStruct, .msgbuf, .epollFd, .controlEventfd, .semaphore],
      released := [.semaphore, .controlEventfd, .epollFd, .msgbuf, .engineStruct],
      callerFds := fds }
  else if o.semWaitFails 0 then
    { ok := false, errmsg := some "sem_wait failed",
      acquired := [.engineStruct, .msgbuf, .epollFd, .controlEventfd, .semaphore,
        .worker 0],
      released := [.worker 0, .semaphore, .controlEventfd, .epollFd, .msgbuf,
        .engineStruct],
      callerFds := fds }
  else
    { ok := true, errmsg := none,
      acquired := [.engineStruct, .msgbuf, .epollFd, .controlEventfd, .semaphore,
        .worker 0],
      released := [], callerFds := fds }

/-- io_uring_create (src/io_uring.c lines 90-178). The poll-add
submissions prepared between queue creation and thread start cannot
abort construction (io_uring_add_poll_sqe only logs on failure), so they
do not appear as failure branches. -/
def iouringCreate (opts : Options) (fds : List Int) (o : Oracle) : CreateOut :=
  if o.allocFails .engineStruct then
    { ok := false, errmsg := some "Out of memory",
      acquired := [], released := [], callerFds := fds }
  else if o.allocFails .msgbuf then
    { ok := false, errmsg := some "Out of memory",
      acquired := [.engineStruct], released := [.engineStruct], callerFds := fds }
  else if o.allocFails .uringQueue then
    { ok := false,
      errmsg := some "io_uring_queue_init failed (do you need to increase ulimit -l?)",
      acquired := [.engineStruct, .msgbuf],
      released := [.msgbuf, .engineStruct], callerFds := fds }
  else if o.allocFails .controlEventfd then
    { ok := false, errmsg := some "Eventfd creation failed",
      acquired := [.engineStruct, .msgbuf, .uringQueue],
      released := [.uringQueue, .msgbuf, .engineStruct], callerFds := fds }
  else if o.allocFails .semaphore then
    { ok := false, errmsg := some "Failed to create startup semaphore",
      acquired := [.engineStruct, .msgbuf, .uringQueue, .controlEventfd],
      released := [.controlEventfd, .uringQueue, .msgbuf, .engineStruct],
      callerFds := fds }
  else if o.spawnFails 0 then
    { ok := false, errmsg := some "pthread_create failed",
      acquired := [.engineStruct, .msgbuf, .uringQueue, .controlEventfd, .semaphore],
      released := [.semaphore, .controlEventfd, .uringQueue, .msgbuf, .engineStruct],
      callerFds := fds }
  else if o.semWaitFails 0 then
    { ok := false, errmsg := some "sem_wait failed",
      acquired := [.engineStruct, .msgbuf, .uringQueue, .controlEventfd, .semaphore,
        .worker 0],
      released := [.worker 0, .semaphore, .controlEventfd, .uringQueue, .msgbuf,
        .engineStruct],
      callerFds := fds }
  else
    { ok := true, errmsg := none,
      acquired := [.engineStruct, .msgbuf, .uringQueue, .controlEventfd, .semaphore,
        .worker 0],
      released := [], callerFds := fds }

/-- Resources held by threads_create before its spawn loop starts. -/
def threadsBase : List Res :=
  [.engineStruct, .msgbuf, .threadsArray, .semaphore]

/-- The spawn loop of threads_create (thread-per-descriptor translation
unit, lines 75-103), iterating over the remaining descriptors with i the
index of the next worker. A pthread_create failure at index i cancels
and joins workers i-1 down to 0 and unwinds; a sem_wait failure at index
i first joins worker i, then cancels and joins workers i-1 down to 0 and
unwinds. -/
def threadsLoop (o : Oracle) (fds : List Int) : Nat → Nat → CreateOut
  | 0, i =>
    { ok := true, errmsg := none,
      acquired := threadsBase ++ (List.range i).map Res.worker,
      released := [], callerFds := fds }
  | remaining + 1, i =>
    if o.spawnFails i then
      { ok := false, errmsg := some "pthread_create failed",
        acquired := threadsBase ++ (List.range i).map Res.worker,
        released := ((List.range i).map Res.worker).reverse ++
          [.semaphore, .threadsArray, .msgbuf, .engineStruct],
        callerFds := fds }
    else if o.semWaitFails i then
      { ok := false, errmsg := some "sem_wait failed",
        acquired := threadsBase ++ (List.range (i + 1)).map Res.worker,
        released := Res.worker i :: ((List.range i).map Res.worker).reverse ++
          [.semaphore, .threadsArray, .msgbuf, .engineStruct],
        callerFds := fds }
    else threadsLoop o fds remaining (i + 1)

/-- threads_create (thread-per-descriptor translation unit, lines
39-117): the engine structure, message buffer and thread array are
allocated and the startup semaphore initialised, then one worker per
descriptor is spawned and awaited by the loop. The fcntl call that
clears O_NONBLOCK on each descriptor modifies descriptor flags, not the
caller array, and is modelled separately. -/
def threadsCreate (opts : Options) (fds : List Int) (o : Oracle) : CreateOut :=
  if o.allocFails .engineStruct then
    { ok := false, errmsg := some "Out of memory",
      acquired := [], released := [], callerFds := fds }
  else if o.allocFails .msgbuf then
    { ok := false, errmsg := some "Out of memory",
      acquired := [.engineStruct], released := [.engineStruct], callerFds := fds }
  else if o.allocFails .threadsArray then
    { ok := false, errmsg := some "Out of memory",
      acquired := [.engineStruct, .msgbuf],
      released := [.msgbuf, .engineStruct], callerFds := fds }
  else if o.allocFails .semaphore then
    { ok := false, errmsg := some "Failed to create startup semaphore",
      acquired := [.engineStruct, .msgbuf, .threadsArray],
      released := [.threadsArray, .msgbuf, .engineStruct], callerFds := fds }
  else threadsLoop o fds opts.num_fds 0

/-- Dispatch of the create models over the backends. -/
def createModel (b : Backend) (opts : Options) (fds : List Int) (o : Oracle) :
    CreateOut :=
  match b with
  | .select => selectCreate opts fds o
  | .poll => pollCreate opts fds o
  | .epoll => epollCreate opts fds o
  | .iouring => iouringCreate opts fds o
  | .threads => threadsCreate opts fds o

theorem threadsLoop_unwind (o : Oracle) (fds : List Int) :
    ∀ remaining i,
      ((threadsLoop o fds remaining i).ok = false →
        (threadsLoop o fds remaining i).released =
          (threadsLoop o fds remaining i).acquired.reverse ∧
        (threadsLoop o fds remaining i).errmsg.isSome = true) ∧
      ((threadsLoop o fds remaining i).ok = true →
        (threadsLoop o fds remaining i).released = [] ∧
        (threadsLoop o fds remaining i).errmsg = none) := by
  intro remaining
  induction remaining with
  | zero =>
    intro i
    constructor
    · intro h
      simp [threadsLoop] at h
    · intro _
      exact ⟨rfl, rfl⟩
  | succ k ih =>
    intro i
    by_cases hs : o.spawnFails i
    · constructor
      · intro _
        constructor
        · simp [threadsLoop, hs, threadsBase]
        · simp [threadsLoop, hs]
      · intro h
        simp [threadsLoop, hs] at h
    · by_cases hw : o.semWaitFails i
      · constructor
        · intro _
          constructor
          · simp [threadsLoop, hs, hw, threadsBase, List.range_succ]
          · simp [threadsLoop, hs, hw]
        · intro h
          simp [threadsLoop, hs, hw] at h
      · have := ih (i + 1)
        simpa [threadsLoop, hs, hw] using this

theorem threadsLoop_callerFds (o : Oracle) (fds : List Int) :
    ∀ remaining i, (threadsLoop o fds remaining i).callerFds = fds := by
  intro remaining
  induction remaining with
  | zero => intro i; rfl
  | succ k ih =>
    intro i
    by_cases hs : o.spawnFails i
    · simp [threadsLoop, hs]
    · by_cases hw : o.semWaitFails i
      · simp [threadsLoop, hs, hw]
      · simpa [threadsLoop, hs, hw] using ih (i + 1)

/-- A sample configuration: one descriptor, one-byte messages, no
exclusive wakeup, one engine instance, one second. -/
def sampleOpts : Options :=
  { num_fds := 1, msg_size := 1, exclusive := false, num_engines := 1,
    duration_secs := 1 }

/-- The sample configuration with exclusive wakeup requested. -/
def exclusiveOpts : Options :=
  { sampleOpts with exclusive := true }

/-- An oracle under which only the calloc of the message buffer fails. -/
def msgbufFailOracle : Oracle :=
  { benignOracle with allocFails := fun r => r = Res.msgbuf }

/-- Claim C4: on every failing construction path of every backend, the
resources released by the unwind are exactly the resources acquired so
far in reverse acquisition order and a descriptive error message is
reported; on a successful construction nothing is released and no error
is reported. -/
theorem C4_create_unwinds (b : Backend) (opts : Options) (fds : List Int)
    (o : Oracle) :
    ((createModel b opts fds o).ok = false →
      (createModel b opts fds o).released =
        (createModel b opts fds o).acquired.reverse ∧
      (createModel b opts fds o).errmsg.isSome = true) ∧
    ((createModel b opts fds o).ok = true →
      (createModel b opts fds o).released = [] ∧
      (createModel b opts fds o).errmsg = none) := by
  cases b
  case select =>
    simp only [createModel, selectCreate]
    split_ifs <;>
      first
        | exact ⟨fun _ => ⟨rfl, rfl⟩, fun h => by simp at h⟩
        | exact ⟨fun h => by simp at h, fun _ => ⟨rfl, rfl⟩⟩
  case poll =>
    simp only [createModel, pollCreate]
    split_ifs <;>
      first
        | exact ⟨fun _ => ⟨rfl, rfl⟩, fun h => by simp at h⟩
        | exact ⟨fun h => by simp at h, fun _ => ⟨rfl, rfl⟩⟩
  case epoll =>
    simp only [createModel, epollCreate]
    split_ifs <;>
      first
        | exact ⟨fun _ => ⟨rfl, rfl⟩, fun h => by simp at h⟩
        | exact ⟨fun h => by simp at h, fun _ => ⟨rfl, rfl⟩⟩
  case iouring =>
    simp only [createModel, iouringCreate]
    split_ifs <;>
      first
        | exact ⟨fun _ => ⟨rfl, rfl⟩, fun h => by simp at h⟩
        | exact ⟨fun h => by simp at h, fun _ => ⟨rfl, rfl⟩⟩
  case threads =>
    simp only [createModel, threadsCreate]
    split_ifs <;> first
      | exact threadsLoop_unwind o fds opts.num_fds 0
      | exact ⟨fun _ => ⟨rfl, rfl⟩, fun h => by simp at h⟩

/-- Witness for C4_create_unwinds: when the message buffer calloc of
select_create fails, the unwind releases the engine structure (the only
acquisition) and an error is reported. -/
theorem C4_create_unwinds_witness :
    (createModel Backend.select sampleOpts [3] msgbufFailOracle).released =
      (createModel Backend.select sampleOpts [3] msgbufFailOracle).acquired.reverse ∧
    (createModel Backend.select sampleOpts [3] msgbufFailOracle).errmsg.isSome = true :=
  (C4_create_unwinds Backend.select sampleOpts [3] msgbufFailOracle).1 (by decide)

/-- Claim C5 as stated is false: poll_create performs no exclusive
check, so calling it with the exclusive flag set constructs the engine
normally instead of failing, although the poll backend does not support
exclusive wakeup. -/
theorem C5_poll_create_ignores_exclusive :
    (createModel Backend.poll exclusiveOpts [3] benignOracle).ok = true ∧
    (createModel Backend.poll exclusiveOpts [3] benignOracle).errmsg = none ∧
    exclusiveOpts.exclusive = true ∧
    supports_exclusive Backend.poll = false := by
  decide

/-- Claim C5 (amended): only select_create rejects an exclusive request
itself, with a descriptive error and no partial setup; poll_create and
threads_create ignore the flag entirely (their result does not depend on
it); the configuration error for every non-supporting backend is instead
surfaced by the supports_exclusive gate in parse_options before any
engine is constructed. -/
theorem C5_exclusive_rejection (opts : Options) (fds : List Int) (o : Oracle)
    (h : opts.exclusive = true) :
    selectCreate opts fds o =
      { ok := false, errmsg := some "select engine does not support exclusive=1",
        acquired := [], released := [], callerFds := fds } ∧
    pollCreate opts fds o = pollCreate { opts with exclusive := false } fds o ∧
    threadsCreate opts fds o = threadsCreate { opts with exclusive := false } fds o ∧
    (∀ b, supports_exclusive b = false → parseRejectsExclusive true b = true) := by
  refine ⟨?_, rfl, rfl, ?_⟩
  · simp [selectCreate, h]
  · intro b hb
    simp [parseRejectsExclusive, hb]

/-- Witness for C5_exclusive_rejection at the sample configuration with
exclusive requested. -/
theorem C5_exclusive_rejection_witness :
    selectCreate exclusiveOpts [3] benignOracle =
      { ok := false, errmsg := some "select engine does not support exclusive=1",
        acquired := [], released := [], callerFds := [3] } ∧
    pollCreate exclusiveOpts [3] benignOracle =
      pollCreate { exclusiveOpts with exclusive := false } [3] benignOracle ∧
    threadsCreate exclusiveOpts [3] benignOracle =
      threadsCreate { exclusiveOpts with exclusive := false } [3] benignOracle ∧
    (∀ b, supports_exclusive b = false → parseRejectsExclusive true b = true) :=
  C5_exclusive_rejection exclusiveOpts [3] benignOracle rfl

/-- Is the resource a kernel descriptor? The control eventfd, the epoll
descriptor and the io_uring ring (whose queue initialisation creates a
ring descriptor) are; heap blocks, the semaphore and the worker threads
are not. -/
def isFdRes : Res → Bool
  | .controlEventfd => true
  | .epollFd => true
  | .uringQueue => true
  | _ => false

/-- Number of control descriptors a backend opens: one eventfd for each
backend except threads, which has none. -/
def controlFdCount : Backend → Nat
  | .threads => 0
  | _ => 1

/-- Number of descriptors the notification primitive itself consumes:
the epoll descriptor and the io_uring ring descriptor. -/
def primitiveFdCount : Backend → Nat
  | .epoll => 1
  | .iouring => 1
  | _ => 0

theorem worker_map_filter_fd (l : List Nat) :
    (l.map Res.worker).filter isFdRes = [] := by
  induction l with
  | nil => rfl
  | cons a rest ih => simpa [isFdRes] using ih

theorem threadsLoop_no_fd (o : Oracle) (fds : List Int) :
    ∀ remaining i,
      ((threadsLoop o fds remaining i).acquired.filter isFdRes).length = 0 := by
  intro remaining
  induction remaining with
  | zero =>
    intro i
    simp [threadsLoop, threadsBase, List.filter_append, isFdRes, worker_map_filter_fd]
  | succ k ih =>
    intro i
    by_cases hs : o.spawnFails i
    · simp [threadsLoop, hs, threadsBase, List.filter_append, isFdRes,
        worker_map_filter_fd]
    · by_cases hw : o.semWaitFails i
      · simp [threadsLoop, hs, hw, threadsBase, List.filter_append, isFdRes,
          worker_map_filter_fd]
      · simpa [threadsLoop, hs, hw] using ih (i + 1)

/-- Claim C8 as stated is false: a successful epoll construction opens
two descriptors, the epoll descriptor and the control eventfd, so an
engine instance is not limited to a single private control
descriptor. -/
theorem C8_epoll_opens_two_fds :
    ((createModel Backend.epoll sampleOpts [3] benignOracle).acquired.filter
        isFdRes).length = 2 ∧
    ¬ ((createModel Backend.epoll sampleOpts [3] benignOracle).acquired.filter
        isFdRes).length ≤ 1 := by
  decide

/-- Claim C8 (amended): every backend opens at most two descriptors
during create: at most one control eventfd plus at most one descriptor
for the notification primitive itself. The select and poll backends open
at most the single control eventfd, the threads backend opens none, and
a successful create opens exactly the control descriptor count plus the
primitive descriptor count of its backend (2 for epoll and io_uring, 1
for select and poll, 0 for threads). -/
theorem C8_fd_budget (b : Backend) (opts : Options) (fds : List Int) (o : Oracle) :
    ((createModel b opts fds o).acquired.filter isFdRes).length ≤ 2 ∧
    (b = Backend.select ∨ b = Backend.poll →
      ((createModel b opts fds o).acquired.filter isFdRes).length ≤ 1) ∧
    (b = Backend.threads →
      ((createModel b opts fds o).acquired.filter isFdRes).length = 0) ∧
    ((createModel b opts fds o).ok = true →
      ((createModel b opts fds o).acquired.filter isFdRes).length =
        controlFdCount b + primitiveFdCount b) := by
  cases b
  case select =>
    simp only [createModel, selectCreate]
    split_ifs <;> simp [isFdRes, controlFdCount, primitiveFdCount]
  case poll =>
    simp only [createModel, pollCreate]
    split_ifs <;> simp [isFdRes, controlFdCount, primitiveFdCount]
  case epoll =>
    simp only [createModel, epollCreate]
    split_ifs <;> simp [isFdRes, controlFdCount, primitiveFdCount]
  case iouring =>
    simp only [createModel, iouringCreate]
    split_ifs <;> simp [isFdRes, controlFdCount, primitiveFdCount]
  case threads =>
    have hz : ((createModel Backend.threads opts fds o).acquired.filter
        isFdRes).length = 0 := by
      simp only [createModel, threadsCreate]
      split_ifs <;> first
        | exact threadsLoop_no_fd o fds opts.num_fds 0
        | rfl
    refine ⟨by omega, by intro h; cases h <;> simp_all, fun _ => hz, fun _ => ?_⟩
    rw [hz]
    rfl

/-- Witness for C8_fd_budget: a successful io_uring construction opens
exactly two descriptors. -/
theorem C8_fd_budget_witness :
    ((createModel Backend.iouring sampleOpts [3] benignOracle).acquired.filter
        isFdRes).length =
      controlFdCount Backend.iouring + primitiveFdCount Backend.iouring :=
  (C8_fd_budget Backend.iouring sampleOpts [3] benignOracle).2.2.2 (by decide)

/-- Claim C10: no backend writes through the caller descriptor array:
whatever the configuration, the oracle and the outcome, the caller array
contents after create equal the descriptors passed in. Each backend
copies the descriptors into its own private structure (the fds array of
select, the pollfds array of poll, the epoll interest list, the ring
submissions, the stashed startup_fd of threads). -/
theorem C10_caller_fds_untouched (b : Backend) (opts : Options) (fds : List Int)
    (o : Oracle) :
    (createModel b opts fds o).callerFds = fds := by
  cases b
  case select =>
    simp only [createModel, selectCreate]
    split_ifs <;> rfl
  case poll =>
    simp only [createModel, pollCreate]
    split_ifs <;> rfl
  case epoll =>
    simp only [createModel, epollCreate]
    split_ifs <;> rfl
  case iouring =>
    simp only [createModel, iouringCreate]
    split_ifs <;> rfl
  case threads =>
    simp only [createModel, threadsCreate]
    split_ifs <;> first
      | exact threadsLoop_callerFds o fds opts.num_fds 0
      | rfl

/-! ## Channel endpoint blocking modes (claim C7) -/

/-- O_NONBLOCK on Linux: bit 11 of the descriptor status flag word. -/
def O_NONBLOCK : Nat := 2048

/-- The fcntl in iogen_init (src/iogen.c lines 48-51): the engine-side
endpoint of each freshly created socketpair gets F_SETFL with O_NONBLOCK
or-ed into its current flags; the generator-side endpoint is left with
the socketpair default, blocking. -/
def setNonblockFlags (flags : Nat) : Nat :=
  O_NONBLOCK ||| flags

/-- The fcntl in threads_create (thread-per-descriptor translation unit,
lines 79-80): F_SETFL with the current flags and-ed with the 32-bit
complement of O_NONBLOCK, switching the descriptor to blocking mode. -/
def clearNonblockFlags (flags : Nat) : Nat :=
  flags &&& 4294965247

/-- Whether a status flag word has O_NONBLOCK set. -/
def isNonblock (flags : Nat) : Bool :=
  flags.testBit 11

/-- Effect of each create on the status flags of an engine-side data
descriptor: only threads_create modifies descriptor flags (no fcntl
appears in select_create, poll_create, epoll_do_create or
io_uring_create). -/
def createEngineFdFlags (b : Backend) (flags : Nat) : Nat :=
  match b with
  | .threads => clearNonblockFlags flags
  | _ => flags

/-- Claim C7 as stated is false: constructing a thread-per-descriptor
engine clears O_NONBLOCK on the engine-side endpoint (flag word 2,
O_RDWR, made non-blocking by iogen_init and then switched back to
blocking), so the engine-side endpoint is no longer non-blocking. -/
theorem C7_threads_create_clears_nonblock :
    isNonblock (createEngineFdFlags Backend.threads (setNonblockFlags 2)) = false := by
  decide

/-- Claim C7 (amended): iogen_init establishes the invariant by setting
O_NONBLOCK on every engine-side endpoint, and the select, poll, epoll
and io_uring creates never touch descriptor flags, so they preserve it;
the thread-per-descriptor create deliberately breaks it, switching every
engine-side endpoint to blocking mode for its blocking-read workers. -/
theorem C7_nonblock_invariant (b : Backend) (flags : Nat) :
    isNonblock (setNonblockFlags flags) = true ∧
    (b ≠ Backend.threads →
      createEngineFdFlags b (setNonblockFlags flags) = setNonblockFlags flags) ∧
    (b = Backend.threads →
      isNonblock (createEngineFdFlags b (setNonblockFlags flags)) = false) := by
  refine ⟨?_, ?_, ?_⟩
  · show (O_NONBLOCK ||| flags).testBit 11 = true
    rw [Nat.testBit_lor]
    have h : O_NONBLOCK.testBit 11 = true := by decide
    rw [h]
    rfl
  · intro hb
    cases b
    case threads => exact absurd rfl hb
    all_goals rfl
  · intro hb
    subst hb
    show ((O_NONBLOCK ||| flags) &&& 4294965247).testBit 11 = false
    rw [Nat.testBit_land]
    have h : (4294965247 : Nat).testBit 11 = false := by decide
    rw [h]
    exact Bool.and_false _

/-- Witness for C7_nonblock_invariant: the epoll create leaves the
engine-side flag word untouched. -/
theorem C7_nonblock_invariant_witness :
    createEngineFdFlags Backend.epoll (setNonblockFlags 2) = setNonblockFlags 2 :=
  (C7_nonblock_invariant Backend.epoll 2).2.1 (by decide)

/-! ## The load generator (claims C6 and C9) -/

/-- struct iogen as observable state: the descriptor count, message
size, round-trip counter num_ios, and flags recording that the random
state was seeded and the buffers allocated. -/
structure IogenState where
  num_fds : Nat
  msg_size : Nat
  num_ios : Nat
  randomSeeded : Bool
  buffersAllocated : Bool
deriving DecidableEq

/-- iogen_init (src/iogen.c lines 11-54) as a transformation of the
state it receives: main passes a pointer to an uninitialised automatic
struct iogen, modelled as the arbitrary prior state pre. iogen_init
assigns num_fds and msg_size from the options, seeds the reentrant
random state and allocates the descriptor arrays and message buffer. No
statement of iogen_init (or of its allocation-failure path) assigns
num_ios, so the field keeps the prior stack contents. -/
def iogen_init (pre : IogenState) (opts : Options) : IogenState :=
  { pre with
    num_fds := opts.num_fds
    msg_size := opts.msg_size
    randomSeeded := true
    buffersAllocated := true }

/-- Observable events of one iteration of the iogen_run loop
(src/iogen.c lines 108-134): whether the stop flag was seen set right
after the blocking write, the write return value, the same for the read,
and the random_r draw used to select the next channel. The stop flag
being set at the loop head is modelled by the iteration schedule ending. -/
structure IterEnv where
  stopAfterWrite : Bool
  writeRet : Int
  stopAfterRead : Bool
  readRet : Int
  randVal : Nat
deriving DecidableEq

/-- One fully successful iteration: both transfers move one byte of a
one-byte message and the draw selects channel 0. -/
def okIter : IterEnv :=
  { stopAfterWrite := false, writeRet := 1, stopAfterRead := false,
    readRet := 1, randVal := 0 }

/-- The iogen_run loop (src/iogen.c lines 108-134) over a schedule of
iteration environments, carrying the round-trip counter num_ios and the
currently selected channel fd (initially 0): write, break on observed
stop or short write, read, break on observed stop or short read,
increment num_ios, select the next channel as the draw modulo num_fds.
Returns the final num_ios. -/
def iogen_run (msg_size num_fds : Nat) : List IterEnv → Nat → Nat → Nat
  | [], ios, _fd => ios
  | e :: rest, ios, _fd =>
    if e.stopAfterWrite then ios
    else if e.writeRet ≠ (msg_size : Int) then ios
    else if e.stopAfterRead then ios
    else if e.readRet ≠ (msg_size : Int) then ios
    else iogen_run msg_size num_fds rest (ios + 1) (e.randVal % num_fds)

/-- Claim C6 is right about the intended counter semantics, but the code
leaves num_ios uninitialised: neither main (which declares struct iogen
as an automatic variable) nor iogen_init assigns it a starting value.
Starting from stack contents 7 in num_ios, iogen_init leaves the field
at 7, and a run completing two successful round trips reports 9 total
roundtrips instead of 2. -/
theorem C6_num_ios_uninitialised :
    (iogen_init
        { num_fds := 0, msg_size := 0, num_ios := 7, randomSeeded := false,
          buffersAllocated := false } sampleOpts).num_ios = 7 ∧
    iogen_run 1 1 [okIter, okIter] 7 0 = 9 ∧ (9 : Nat) ≠ 2 := by
  decide

/-- Number of distinct values of the reentrant random stream: random_r
stores into an int32_t a value in the range 0 to RAND_MAX, that is
[0, 2^31). -/
def RAND_RANGE : Nat := 2147483648

/-- The channel selection of iogen_run (src/iogen.c lines 130-133): the
next channel index is the non-negative draw r reduced modulo num_fds. -/
def next_fd (r : Nat) (num_fds : Nat) : Nat :=
  r % num_fds

/-- Number of draws r in [0, N) whose selection r mod n equals k. -/
def residueCount (N n k : Nat) : Nat :=
  ((List.range N).filter (fun r => r % n = k)).length

theorem residueCount_succ (N n k : Nat) :
    residueCount (N + 1) n k =
      residueCount N n k + if N % n = k then 1 else 0 := by
  simp only [residueCount, List.range_succ, List.filter_append]
  split_ifs <;> simp_all

theorem residueCount_eq (N n k : Nat) (hn : 0 < n) (hk : k < n) :
    residueCount N n k = N / n + if k < N % n then 1 else 0 := by
  induction N with
  | zero => simp [residueCount, Nat.zero_div]
  | succ N ih =>
    rw [residueCount_succ, ih]
    have hdm : n * (N / n) + N % n = N := Nat.div_add_mod N n
    have hlt : N % n < n := Nat.mod_lt _ hn
    by_cases hA : N % n + 1 = n
    · have hN1 : N + 1 = n * (N / n + 1) := by
        rw [Nat.mul_succ]
        omega
      have hmod : (N + 1) % n = 0 := by
        rw [hN1]
        exact Nat.mul_mod_right n _
      have hdiv : (N + 1) / n = N / n + 1 := by
        rw [hN1]
        exact Nat.mul_div_cancel_left _ hn
      rw [hmod, hdiv]
      split_ifs <;> omega
    · have h1 : N + 1 = (N % n + 1) + n * (N / n) := by omega
      have hmod : (N + 1) % n = N % n + 1 := by
        rw [h1, Nat.add_mul_mod_self_left]
        exact Nat.mod_eq_of_lt (by omega)
      have hdiv : (N + 1) / n = N / n := by
        rw [h1, Nat.add_mul_div_left _ _ hn]
        have h2 : (N % n + 1) / n = 0 := Nat.div_eq_of_lt (by omega)
        rw [h2]
        exact Nat.zero_add _
      rw [hmod, hdiv]
      split_ifs <;> omega

/-- Claim C9 as stated is false: the selection is the draw reduced
modulo num_fds, and with num_fds = 3 the 2^31 equally likely draws do
not distribute uniformly over the indices: index 0 is selected by one
more draw value than index 2 (715827883 against 715827882). -/
theorem C9_modulo_bias :
    residueCount RAND_RANGE 3 0 ≠ residueCount RAND_RANGE 3 2 := by
  have h0 := residueCount_eq RAND_RANGE 3 0 (by norm_num) (by norm_num)
  have h2 := residueCount_eq RAND_RANGE 3 2 (by norm_num) (by norm_num)
  rw [h0, h2]
  norm_num [RAND_RANGE]

/-- Claim C9 (amended): every selected index is in [0, num_fds), and the
selection is uniform to within one: any two indices are selected by
draw-value counts differing by at most one. Exact uniformity holds only
when num_fds divides 2^31, so the selection carries a modulo bias in
general. -/
theorem C9_next_fd_near_uniform (r n j k : Nat) (hn : 0 < n) (hj : j < n)
    (hk : k < n) :
    next_fd r n < n ∧
    residueCount RAND_RANGE n j ≤ residueCount RAND_RANGE n k + 1 := by
  constructor
  · exact Nat.mod_lt _ hn
  · rw [residueCount_eq _ _ _ hn hj, residueCount_eq _ _ _ hn hk]
    split_ifs <;> omega

/-- Witness for C9_next_fd_near_uniform at a concrete draw and
descriptor count. -/
theorem C9_next_fd_near_uniform_witness :
    next_fd 5 3 < 3 ∧
    residueCount RAND_RANGE 3 0 ≤ residueCount RAND_RANGE 3 2 + 1 :=
  C9_next_fd_near_uniform 5 3 0 2 (by decide) (by decide) (by decide)

end Fdmonbench
